import Mathlib

/-!
Verification of `src/components/VehicleMap.jsx` from the Vehicle-Tracking-App
repository: a shallow embedding of the component's non-rendering logic
(the geo estimator, the route store, and the playback state machine),
followed by theorems settling the specification's claims.

JS numbers are modelled by real numbers `ℝ`.  A route point's `timestamp`
field is a string in the source; the component only ever consumes it through
`new Date(ts).getTime()`, so the embedding stores the result of that
conversion: `some t` when the string parses to the finite epoch value `t`,
and `none` when parsing fails (JS yields `NaN`).  `NaN` propagation through
arithmetic and the fact that `NaN <= 0` is `false` in JS are reflected in
the branch structure of `calculateSpeedKmH` below.
-/

/-- A normalized route point as stored in the component state:
`{lat, lng, timestamp}`.  `timestamp` holds the epoch milliseconds obtained
from `new Date(point.timestamp).getTime()`, or `none` for an unparseable
string (JS `NaN`). -/
structure RoutePoint where
  lat : ℝ
  lng : ℝ
  timestamp : Option ℝ

/-- A raw record of the fetched JSON resource: `{latitude, longitude,
timestamp}`. -/
structure RawPoint where
  latitude : ℝ
  longitude : ℝ
  timestamp : Option ℝ

/-- The field-renaming normalization performed by `loadData`:
`point => ({lat: point.latitude, lng: point.longitude, timestamp: point.timestamp})`. -/
def normalizePoint (p : RawPoint) : RoutePoint :=
  ⟨p.latitude, p.longitude, p.timestamp⟩

/-- `calculateDistanceKm(lat1, lon1, lat2, lon2)` from VehicleMap.jsx:
`Math.sqrt(dLat * dLat + dLon * dLon) * 111.32`, the simplified planar
approximation. -/
noncomputable def calculateDistanceKm (lat1 lon1 lat2 lon2 : ℝ) : ℝ :=
  let dLat := lat2 - lat1
  let dLon := lon2 - lon1
  Real.sqrt (dLat * dLat + dLon * dLon) * 111.32

/-- The result of `calculateSpeedKmH`, which in the source is a string:
`na` is the string `"N/A"`; `nanStr` is the string `"NaN"` produced by
`NaN.toFixed(2)` when a timestamp failed to parse; `fixed n` is the
two-decimal numeral for `n / 100` (so `fixed 0` is the string `"0.00"`). -/
inductive SpeedStr where
  | na : SpeedStr
  | nanStr : SpeedStr
  | fixed (n : ℤ) : SpeedStr
deriving DecidableEq

/-- `v.toFixed(2)` for a finite JS number `v`, represented by the integer
`n` of hundredths in the printed string: the integer closest to `v * 100`,
ties resolved to the larger integer (ECMA-262 Number.prototype.toFixed). -/
noncomputable def jsToFixed2 (v : ℝ) : ℤ :=
  ⌊v * 100 + 1 / 2⌋

/-- `calculateSpeedKmH(currentIndex, routeData)` from VehicleMap.jsx.
Branches, in source order: `currentIndex === 0 || routeData.length <= 1`
returns `'0.00'`; a missing point (`!prevPoint || !currPoint`, i.e. an
out-of-range index) returns `'0.00'`; then
`timeDeltaMs = getTime(curr) - getTime(prev)`, `timeDeltaHours = timeDeltaMs / 3600000`;
`timeDeltaHours <= 0` returns `'N/A'`; otherwise
`(distanceKm / timeDeltaHours).toFixed(2)`.  When either `getTime` is `NaN`
the comparison `NaN <= 0` is `false` in JS and the division produces `NaN`,
so the function returns the string `"NaN"`: the `nanStr` branch.
`speedOfPair prevPoint currPoint` is the body of `calculateSpeedKmH` past
the two guards, factored out. -/
noncomputable def speedOfPair (prevPoint currPoint : RoutePoint) : SpeedStr :=
  let distanceKm := calculateDistanceKm prevPoint.lat prevPoint.lng currPoint.lat currPoint.lng
  match currPoint.timestamp, prevPoint.timestamp with
  | some tc, some tp =>
    let timeDeltaHours := (tc - tp) / (1000 * 60 * 60)
    if timeDeltaHours ≤ 0 then .na
    else .fixed (jsToFixed2 (distanceKm / timeDeltaHours))
  | _, _ => .nanStr

/-- `calculateSpeedKmH(currentIndex, routeData)` from VehicleMap.jsx: the
two guard branches returning `'0.00'`, then the speed of the pair of
adjacent points. -/
noncomputable def calculateSpeedKmH (currentIndex : ℕ) (routeData : List RoutePoint) : SpeedStr :=
  if currentIndex = 0 ∨ routeData.length ≤ 1 then .fixed 0
  else
    match routeData.get? currentIndex, routeData.get? (currentIndex - 1) with
    | some currPoint, some prevPoint => speedOfPair prevPoint currPoint
    | _, _ => .fixed 0

/-- `const currentPosition = routeData[currentIndex] || { lat: 0, lng: 0, timestamp: null }`
from VehicleMap.jsx line 83. -/
def currentPosition (routeData : List RoutePoint) (currentIndex : ℕ) : RoutePoint :=
  (routeData.get? currentIndex).getD ⟨0, 0, none⟩

/-- The component state of `VehicleMap` relevant to playback, plus a model
of the timer resource: `routeData`, `currentIndex`, `isPlaying` are the
three `useState` cells; `activeTimers` counts the `setInterval` timers
currently live; `intervalSet` records whether `intervalRef.current` holds a
live (not yet cleared) interval id. -/
structure VMState where
  routeData : List RoutePoint
  currentIndex : ℕ
  isPlaying : Bool
  activeTimers : ℕ
  intervalSet : Bool

/-- The guard of the timer effect (VehicleMap.jsx line 74):
`isPlaying && routeData.length > 0 && currentIndex < routeData.length - 1`.
Natural-number truncation in `length - 1` agrees with the JS `-1` because
the `length > 0` conjunct is checked first. -/
def timerCond (s : VMState) : Bool :=
  s.isPlaying && decide (0 < s.routeData.length)
    && decide (s.currentIndex < s.routeData.length - 1)

/-- The `useEffect` with dependencies `[isPlaying, currentIndex, routeData]`
(VehicleMap.jsx lines 73-81), as re-run after a state change: React first
runs the cleanup `clearInterval(intervalRef.current)` — cancelling the
interval stored in the ref, if any — and then, if the guard holds, creates
one new interval and stores its id in the ref. -/
def runEffect (s : VMState) : VMState :=
  let cleaned : VMState :=
    { s with
      activeTimers := s.activeTimers - (if s.intervalSet then 1 else 0)
      intervalSet := false }
  if timerCond cleaned then
    { cleaned with activeTimers := cleaned.activeTimers + 1, intervalSet := true }
  else cleaned

/-- The events that drive the component state: the Play/Pause button
(`setIsPlaying(!isPlaying)`), the Reset button (`setIsPlaying(false);
setCurrentIndex(0)`), the interval callback
(`setCurrentIndex(prevIndex => prevIndex + 1)`), and the route-store update
`setRouteData(...)` on a successful load. -/
inductive Evt where
  | toggle : Evt
  | reset : Evt
  | tick : Evt
  | load (r : List RoutePoint) : Evt

/-- Whether an action is a route replacement. -/
def Evt.isLoad : Evt → Bool
  | .load _ => true
  | _ => false

/-- One state transition: the event's `setState` updates, followed by the
re-run of the timer effect (whose dependency array contains every field an
event can change).  The interval callback `tick` only fires while a live
interval exists; otherwise nothing happens. -/
def step (a : Evt) (s : VMState) : VMState :=
  match a with
  | .toggle => runEffect { s with isPlaying := !s.isPlaying }
  | .reset => runEffect { s with isPlaying := false, currentIndex := 0 }
  | .tick =>
    if s.intervalSet then runEffect { s with currentIndex := s.currentIndex + 1 }
    else s
  | .load r => runEffect { s with routeData := r }

/-- The mount-time state: `routeData = []`, `currentIndex = 0`,
`isPlaying = false`, no timer (the first effect run arms nothing since
`isPlaying` is false). -/
def VMState.init : VMState :=
  ⟨[], 0, false, 0, false⟩

/-- The state once a fixed route `r` has been loaded and playback has not
yet been touched: `currentIndex = 0`, `isPlaying = false`, no timer. -/
def initOn (r : List RoutePoint) : VMState :=
  ⟨r, 0, false, 0, false⟩

/-- Run a sequence of events from a state, left to right. -/
def run (acts : List Evt) (s : VMState) : VMState :=
  acts.foldl (fun t a => step a t) s

/-- `loadData` from VehicleMap.jsx lines 49-68: the `try` block fetches and
parses the resource and, on success, stores the field-renamed points via
`setRouteData` (triggering the effect); the `catch` block only logs, so on
any failure of the fetch, the parse, or the mapping, the state is left
untouched. -/
def loadData (res : Except String (List RawPoint)) (s : VMState) : VMState :=
  match res with
  | .ok data => step (Evt.load (data.map normalizePoint)) s
  | .error _ => s

/-- Timer bookkeeping established by every effect re-run: the ref holds a
live interval exactly when the effect guard holds, and accordingly one or
zero timers are live. -/
def TimerInv (s : VMState) : Prop :=
  s.intervalSet = timerCond s ∧ s.activeTimers = (if timerCond s then 1 else 0)

lemma TimerInv.pre {s : VMState} (h : TimerInv s) :
    s.activeTimers = if s.intervalSet then 1 else 0 := by
  rw [h.1]; exact h.2

lemma runEffect_def (s : VMState) :
    runEffect s =
      if timerCond s then
        { s with activeTimers := s.activeTimers - (if s.intervalSet then 1 else 0) + 1,
                 intervalSet := true }
      else
        { s with activeTimers := s.activeTimers - (if s.intervalSet then 1 else 0),
                 intervalSet := false } := rfl

@[simp] lemma runEffect_routeData (s : VMState) :
    (runEffect s).routeData = s.routeData := by
  rw [runEffect_def]; split <;> rfl

@[simp] lemma runEffect_currentIndex (s : VMState) :
    (runEffect s).currentIndex = s.currentIndex := by
  rw [runEffect_def]; split <;> rfl

@[simp] lemma runEffect_isPlaying (s : VMState) :
    (runEffect s).isPlaying = s.isPlaying := by
  rw [runEffect_def]; split <;> rfl

lemma timerCond_update (s : VMState) (tm : ℕ) (iv : Bool) :
    timerCond { s with activeTimers := tm, intervalSet := iv } = timerCond s := rfl

lemma runEffect_eq (s : VMState)
    (h : s.activeTimers = if s.intervalSet then 1 else 0) :
    runEffect s =
      { s with activeTimers := (if timerCond s then 1 else 0),
               intervalSet := timerCond s } := by
  rw [runEffect_def, h]
  cases hiv : s.intervalSet <;> cases htc : timerCond s <;> simp [htc]

lemma runEffect_timerInv (s : VMState)
    (h : s.activeTimers = if s.intervalSet then 1 else 0) :
    TimerInv (runEffect s) := by
  rw [runEffect_eq s h]
  exact ⟨(timerCond_update s _ _).symm, by rw [timerCond_update]; rfl⟩

lemma step_timerInv (a : Evt) (s : VMState) (h : TimerInv s) :
    TimerInv (step a s) := by
  cases a with
  | toggle => exact runEffect_timerInv _ h.pre
  | reset => exact runEffect_timerInv _ h.pre
  | tick =>
    show TimerInv (if s.intervalSet then _ else _)
    split
    · exact runEffect_timerInv _ h.pre
    · exact h
  | load r => exact runEffect_timerInv _ h.pre

lemma run_timerInv (acts : List Evt) (s : VMState) (h : TimerInv s) :
    TimerInv (run acts s) := by
  induction acts generalizing s with
  | nil => exact h
  | cons a acts ih => exact ih _ (step_timerInv a s h)

lemma timerInv_init : TimerInv VMState.init := ⟨rfl, rfl⟩

lemma timerInv_initOn (r : List RoutePoint) : TimerInv (initOn r) := ⟨rfl, rfl⟩

lemma step_toggle (s : VMState) :
    step Evt.toggle s = runEffect { s with isPlaying := !s.isPlaying } := rfl

lemma step_reset (s : VMState) :
    step Evt.reset s = runEffect { s with isPlaying := false, currentIndex := 0 } := rfl

lemma step_tick (s : VMState) :
    step Evt.tick s =
      if s.intervalSet then runEffect { s with currentIndex := s.currentIndex + 1 }
      else s := rfl

lemma step_load (s : VMState) (r : List RoutePoint) :
    step (Evt.load r) s = runEffect { s with routeData := r } := rfl

lemma run_noLoad_bound (r : List RoutePoint) (acts : List Evt) (s : VMState)
    (hnl : ∀ ρ, Evt.load ρ ∉ acts) (h1 : TimerInv s) (h2 : s.routeData = r)
    (h3 : s.currentIndex ≤ r.length - 1) :
    TimerInv (run acts s) ∧ (run acts s).routeData = r ∧
      (run acts s).currentIndex ≤ r.length - 1 := by
  induction acts generalizing s with
  | nil => exact ⟨h1, h2, h3⟩
  | cons a acts ih =>
    have hnl2 : ∀ ρ, Evt.load ρ ∉ acts := fun ρ hm => hnl ρ (List.mem_cons_of_mem _ hm)
    have ha : ∀ ρ, a ≠ Evt.load ρ := fun ρ he => hnl ρ (he ▸ List.mem_cons_self _ _)
    refine ih (step a s) hnl2 (step_timerInv a s h1) ?_ ?_
    · cases a with
      | toggle => rw [step_toggle, runEffect_routeData]; exact h2
      | reset => rw [step_reset, runEffect_routeData]; exact h2
      | tick =>
        rw [step_tick]
        split
        · rw [runEffect_routeData]; exact h2
        · exact h2
      | load ρ => exact absurd rfl (ha ρ)
    · cases a with
      | toggle => rw [step_toggle, runEffect_currentIndex]; exact h3
      | reset =>
        rw [step_reset, runEffect_currentIndex]
        exact Nat.zero_le _
      | tick =>
        rw [step_tick]
        split
        · rename_i hiv
          rw [runEffect_currentIndex]
          have htc : timerCond s = true := by rw [← h1.1]; exact hiv
          have hlt : s.currentIndex < s.routeData.length - 1 := by
            unfold timerCond at htc
            simp only [Bool.and_eq_true, decide_eq_true_eq] at htc
            exact htc.2
          rw [h2] at hlt
          show s.currentIndex + 1 ≤ r.length - 1
          omega
        · exact h3
      | load ρ => exact absurd rfl (ha ρ)

/-- A concrete route point used to instantiate the theorems: origin at
epoch 0. -/
def pt0 : RoutePoint := ⟨0, 0, some 0⟩

/-- A concrete route point 3/5 degree north and 4/5 degree east of `pt0`,
one hour (3600000 ms) later, so that the planar displacement is exactly one
degree. -/
noncomputable def pt1 : RoutePoint := ⟨3 / 5, 4 / 5, some 3600000⟩

/-- A concrete route point whose timestamp string does not parse. -/
def ptBadA : RoutePoint := ⟨0, 0, none⟩

/-- A second concrete route point whose timestamp string does not parse. -/
def ptBadB : RoutePoint := ⟨1, 1, none⟩

/-- C2: over a fixed non-empty route, any sequence of play/pause toggles,
resets, and timer ticks keeps `currentIndex ≤ length - 1`; and once
`currentIndex` is the last index a tick changes nothing — no advancement,
no new timer — while `isPlaying` keeps its value. -/
theorem currentIndex_bounded (r : List RoutePoint) (acts : List Evt)
    (_hr : r ≠ []) (hnl : ∀ ρ, Evt.load ρ ∉ acts) :
    (run acts (initOn r)).currentIndex ≤ r.length - 1 ∧
    ((run acts (initOn r)).currentIndex = r.length - 1 →
      step Evt.tick (run acts (initOn r)) = run acts (initOn r) ∧
      (step Evt.tick (run acts (initOn r))).isPlaying =
        (run acts (initOn r)).isPlaying) := by
  have h := run_noLoad_bound r acts (initOn r) hnl (timerInv_initOn r) rfl (Nat.zero_le _)
  refine ⟨h.2.2, fun hend => ?_⟩
  have hiv : (run acts (initOn r)).intervalSet = false := by
    rw [h.1.1]
    unfold timerCond
    rw [hend, h.2.1]
    simp
  have hstep : step Evt.tick (run acts (initOn r)) = run acts (initOn r) := by
    rw [step_tick, hiv]
    simp
  exact ⟨hstep, by rw [hstep]⟩

/-- Witness for C2 at the two-point route `[pt0, pt1]` and the event
sequence play-then-tick, which lands on the last index. -/
theorem currentIndex_bounded_witness :
    ([pt0, pt1] ≠ ([] : List RoutePoint)) ∧
    (run [Evt.toggle, Evt.tick] (initOn [pt0, pt1])).currentIndex ≤
      [pt0, pt1].length - 1 :=
  ⟨by simp,
    (currentIndex_bounded [pt0, pt1] [Evt.toggle, Evt.tick] (by simp)
      (by intro ρ hm; simp at hm)).1⟩

/-- C5: after any finite sequence of play/pause toggles, resets, route
loads, and timer ticks from the mount-time state, at most one interval
timer is concurrently live: each effect re-run clears the stored interval
before deciding whether to create a new one. -/
theorem at_most_one_timer (acts : List Evt) :
    (run acts VMState.init).activeTimers ≤ 1 := by
  have h := run_timerInv acts VMState.init timerInv_init
  rw [h.2]
  split <;> omega

/-- C6: from every reachable state, Reset yields `isPlaying = false`,
`currentIndex = 0` and no live timer, and applying Reset twice in a row
gives the same state as applying it once. -/
theorem reset_stops_and_is_idempotent (acts : List Evt) :
    (step Evt.reset (run acts VMState.init)).isPlaying = false ∧
    (step Evt.reset (run acts VMState.init)).currentIndex = 0 ∧
    (step Evt.reset (run acts VMState.init)).activeTimers = 0 ∧
    step Evt.reset (step Evt.reset (run acts VMState.init)) =
      step Evt.reset (run acts VMState.init) := by
  have hs := run_timerInv acts VMState.init timerInv_init
  have h1 : step Evt.reset (run acts VMState.init) =
      { run acts VMState.init with
        currentIndex := 0, isPlaying := false, activeTimers := 0, intervalSet := false } := by
    rw [step_reset,
      runEffect_eq { run acts VMState.init with isPlaying := false, currentIndex := 0 } hs.pre]
    rfl
  rw [h1]
  exact ⟨rfl, rfl, rfl, rfl⟩

lemma calculateSpeedKmH_eq_pair (r : List RoutePoint) (i : ℕ) (c p : RoutePoint)
    (hi : 1 ≤ i) (hc : r.get? i = some c) (hp : r.get? (i - 1) = some p) :
    calculateSpeedKmH i r = speedOfPair p c := by
  have hlen : 1 < r.length := by
    have h := (List.get?_eq_some.mp hc).1
    omega
  unfold calculateSpeedKmH
  rw [if_neg (by omega), hc, hp]

lemma speedOfPair_na (p c : RoutePoint) (tc tp : ℝ)
    (htc : c.timestamp = some tc) (htp : p.timestamp = some tp) (hle : tc ≤ tp) :
    speedOfPair p c = SpeedStr.na := by
  unfold speedOfPair
  rw [htc, htp]
  exact if_pos (div_nonpos_iff.mpr (Or.inr ⟨by linarith, by norm_num⟩))

lemma speedOfPair_formula (p c : RoutePoint) (tc tp : ℝ)
    (htc : c.timestamp = some tc) (htp : p.timestamp = some tp) (hlt : tp < tc) :
    speedOfPair p c =
      SpeedStr.fixed (jsToFixed2
        (calculateDistanceKm p.lat p.lng c.lat c.lng / ((tc - tp) / (1000 * 60 * 60)))) := by
  unfold speedOfPair
  rw [htc, htp]
  exact if_neg (not_le.mpr (div_pos (by linarith) (by norm_num)))

lemma speedOfPair_nan (p c : RoutePoint)
    (h : c.timestamp = none ∨ p.timestamp = none) :
    speedOfPair p c = SpeedStr.nanStr := by
  unfold speedOfPair
  rcases h with h | h
  · rw [h]
  · rw [h]
    rcases c.timestamp with _ | tc <;> rfl

lemma speed_guard_zero (r : List RoutePoint) (i : ℕ)
    (h : i = 0 ∨ r.length ≤ 1 ∨ r.get? i = none ∨ r.get? (i - 1) = none) :
    calculateSpeedKmH i r = SpeedStr.fixed 0 := by
  unfold calculateSpeedKmH
  by_cases h0 : i = 0 ∨ r.length ≤ 1
  · rw [if_pos h0]
  · rw [if_neg h0]
    push_neg at h0
    have hgi : r.get? i = none := by
      rcases h with h | h | h | h
      · exact absurd h h0.1
      · exact absurd h (by omega)
      · exact h
      · refine List.get?_eq_none.mpr ?_
        have hl := List.get?_eq_none.mp h
        have hi : i ≠ 0 := h0.1
        omega
    rw [hgi]

/-- C1: for every route and every index `i ≥ 1` where both adjacent points
exist and the timestamp at `i` is strictly later than at `i - 1`,
`calculateSpeedKmH` returns the planar distance
`sqrt((lat_i - lat_{i-1})^2 + (lng_i - lng_{i-1})^2) * 111.32` divided by
the elapsed hours, formatted to two decimals. -/
theorem speed_matches_formula (r : List RoutePoint) (i : ℕ) (c p : RoutePoint) (tc tp : ℝ)
    (hi : 1 ≤ i) (hc : r.get? i = some c) (hp : r.get? (i - 1) = some p)
    (htc : c.timestamp = some tc) (htp : p.timestamp = some tp) (hlt : tp < tc) :
    calculateSpeedKmH i r =
      SpeedStr.fixed (jsToFixed2
        (Real.sqrt ((c.lat - p.lat) ^ 2 + (c.lng - p.lng) ^ 2) * 111.32 /
          ((tc - tp) / (1000 * 60 * 60)))) := by
  rw [calculateSpeedKmH_eq_pair r i c p hi hc hp,
    speedOfPair_formula p c tc tp htc htp hlt]
  rw [pow_two, pow_two]
  rfl

/-- Witness for C1: on the route `[pt0, pt1]` at index 1, the displacement
is one planar degree and the elapsed time one hour, so the speed string is
111.32 km/h, i.e. 11132 hundredths. -/
theorem speed_matches_formula_witness :
    (pt0.timestamp = some 0 ∧ pt1.timestamp = some 3600000 ∧ (0 : ℝ) < 3600000) ∧
    calculateSpeedKmH 1 [pt0, pt1] = SpeedStr.fixed 11132 :=
  ⟨⟨rfl, rfl, by norm_num⟩,
    (speed_matches_formula [pt0, pt1] 1 pt1 pt0 3600000 0 le_rfl rfl rfl rfl rfl
        (by norm_num)).trans
      (by
        have harg : (pt1.lat - pt0.lat) ^ 2 + (pt1.lng - pt0.lng) ^ 2 = 1 := by
          show ((3 : ℝ) / 5 - 0) ^ 2 + ((4 : ℝ) / 5 - 0) ^ 2 = 1
          norm_num
        rw [harg, Real.sqrt_one]
        unfold jsToFixed2
        norm_num)⟩

/-- C3: whenever both adjacent points exist at `i - 1` and `i` but the
current timestamp is not later than the previous one, `calculateSpeedKmH`
returns the sentinel `"N/A"` without dividing by the elapsed time. -/
theorem speed_na_nonpositive_elapsed (r : List RoutePoint) (i : ℕ) (c p : RoutePoint)
    (tc tp : ℝ) (hi : 1 ≤ i) (hc : r.get? i = some c) (hp : r.get? (i - 1) = some p)
    (htc : c.timestamp = some tc) (htp : p.timestamp = some tp) (hle : tc ≤ tp) :
    calculateSpeedKmH i r = SpeedStr.na :=
  (calculateSpeedKmH_eq_pair r i c p hi hc hp).trans
    (speedOfPair_na p c tc tp htc htp hle)

/-- A route point with timestamp 1000 ms, for the C3 witness (followed by
an earlier point). -/
def ptT0 : RoutePoint := ⟨0, 0, some 1000⟩

/-- A route point with timestamp 0 ms, placed after `ptT0` in the C3
witness route, making the elapsed time negative. -/
def ptT1 : RoutePoint := ⟨1, 1, some 0⟩

/-- Witness for C3: a route whose second timestamp is earlier than its
first produces `"N/A"` at index 1. -/
theorem speed_na_witness :
    (ptT1.timestamp = some 0 ∧ ptT0.timestamp = some 1000 ∧ (0 : ℝ) ≤ 1000) ∧
    calculateSpeedKmH 1 [ptT0, ptT1] = SpeedStr.na :=
  ⟨⟨rfl, rfl, by norm_num⟩,
    speed_na_nonpositive_elapsed [ptT0, ptT1] 1 ptT1 ptT0 0 1000 le_rfl rfl rfl rfl rfl
      (by norm_num)⟩

/-- C4: `calculateSpeedKmH` returns the string `"0.00"` at index 0, on a
route with at most one point, and whenever the point at `i` or at `i - 1`
is missing. -/
theorem speed_zero_sentinel (r : List RoutePoint) (i : ℕ)
    (h : i = 0 ∨ r.length ≤ 1 ∨ r.get? i = none ∨ r.get? (i - 1) = none) :
    calculateSpeedKmH i r = SpeedStr.fixed 0 :=
  speed_guard_zero r i h

/-- Witness for C4: at index 0 on the empty route the speed is `"0.00"`. -/
theorem speed_zero_sentinel_witness :
    ((0 : ℕ) = 0 ∨ ([] : List RoutePoint).length ≤ 1 ∨
      ([] : List RoutePoint).get? 0 = none ∨ ([] : List RoutePoint).get? (0 - 1) = none) ∧
    calculateSpeedKmH 0 [] = SpeedStr.fixed 0 :=
  ⟨Or.inl rfl, speed_zero_sentinel [] 0 (Or.inl rfl)⟩

/-- C9: when `currentIndex` is outside the bounds of the (possibly empty,
possibly just-replaced) route, no read indexes out of range: the
current-position read degrades to the default point
`{lat: 0, lng: 0, timestamp: null}` and the speed readout degrades to
`"0.00"`. -/
theorem out_of_range_reads_default (r : List RoutePoint) (i : ℕ) (h : r.length ≤ i) :
    currentPosition r i = ⟨0, 0, none⟩ ∧ calculateSpeedKmH i r = SpeedStr.fixed 0 := by
  have hn : r.get? i = none := List.get?_eq_none.mpr h
  constructor
  · unfold currentPosition
    rw [hn]
    rfl
  · exact speed_guard_zero r i (Or.inr (Or.inr (Or.inl hn)))

/-- Witness for C9: reading index 0 of the empty route yields the default
point and the zero speed string. -/
theorem out_of_range_reads_default_witness :
    ([] : List RoutePoint).length ≤ 0 ∧
    (currentPosition [] 0 = ⟨0, 0, none⟩ ∧ calculateSpeedKmH 0 [] = SpeedStr.fixed 0) :=
  ⟨Nat.le_refl 0, out_of_range_reads_default [] 0 (Nat.le_refl 0)⟩

/-- C10: `calculateDistanceKm` is symmetric in its two coordinate pairs and
always nonnegative. -/
theorem distance_symm_and_nonneg (lat1 lon1 lat2 lon2 : ℝ) :
    calculateDistanceKm lat1 lon1 lat2 lon2 = calculateDistanceKm lat2 lon2 lat1 lon1 ∧
    0 ≤ calculateDistanceKm lat1 lon1 lat2 lon2 := by
  constructor
  · show Real.sqrt ((lat2 - lat1) * (lat2 - lat1) + (lon2 - lon1) * (lon2 - lon1)) * 111.32
      = Real.sqrt ((lat1 - lat2) * (lat1 - lat2) + (lon1 - lon2) * (lon1 - lon2)) * 111.32
    rw [show (lat2 - lat1) * (lat2 - lat1) + (lon2 - lon1) * (lon2 - lon1)
        = (lat1 - lat2) * (lat1 - lat2) + (lon1 - lon2) * (lon1 - lon2) from by ring]
  · show (0 : ℝ) ≤ Real.sqrt ((lat2 - lat1) * (lat2 - lat1) + (lon2 - lon1) * (lon2 - lon1)) * 111.32
    exact mul_nonneg (Real.sqrt_nonneg _) (by norm_num)

/-- C7: a failed route load (fetch or parse) is caught: the component state
is exactly what it was before the load, and on the first load the route is
still empty; nothing propagates to `currentIndex` or `isPlaying`. -/
theorem load_failure_keeps_state (e : String) (s : VMState) :
    loadData (Except.error e) s = s ∧
    (loadData (Except.error e) VMState.init).routeData = [] :=
  ⟨rfl, rfl⟩

/-- The result shape asserted by the C8 spec sentence, written from the
spec's words (not from the source): the sentinel `"N/A"`, or a nonnegative
numeric speed formatted to two decimals (which includes the zero sentinel
`"0.00"` as `fixed 0`); never an undefined, negative, or infinite value. -/
def SpecClaimedSpeedShape (v : SpeedStr) : Prop :=
  v = SpeedStr.na ∨ ∃ n : ℤ, 0 ≤ n ∧ v = SpeedStr.fixed n

/-- Counterexample for C8: on a two-point route whose timestamp strings do
not parse as dates, `calculateSpeedKmH 1` returns the string `"NaN"`
(`NaN.toFixed(2)`), which is neither `"N/A"`, nor `"0.00"`, nor a numeric
speed formatted to two decimals. -/
theorem speed_shape_counterexample :
    ¬ SpecClaimedSpeedShape (calculateSpeedKmH 1 [ptBadA, ptBadB]) := by
  have h : calculateSpeedKmH 1 [ptBadA, ptBadB] = SpeedStr.nanStr := by
    rw [calculateSpeedKmH_eq_pair [ptBadA, ptBadB] 1 ptBadB ptBadA le_rfl rfl rfl]
    exact speedOfPair_nan ptBadA ptBadB (Or.inl rfl)
  rw [h]
  rintro (h1 | ⟨n, -, h2⟩)
  · exact SpeedStr.noConfusion h1
  · exact SpeedStr.noConfusion h2

lemma speedOfPair_shape (p c : RoutePoint) :
    speedOfPair p c = SpeedStr.na ∨ speedOfPair p c = SpeedStr.nanStr ∨
      ∃ n : ℤ, 0 ≤ n ∧ speedOfPair p c = SpeedStr.fixed n := by
  cases htc : c.timestamp with
  | none => exact Or.inr (Or.inl (speedOfPair_nan p c (Or.inl htc)))
  | some tc =>
    cases htp : p.timestamp with
    | none => exact Or.inr (Or.inl (speedOfPair_nan p c (Or.inr htp)))
    | some tp =>
      by_cases hle : tc ≤ tp
      · exact Or.inl (speedOfPair_na p c tc tp htc htp hle)
      · push_neg at hle
        refine Or.inr (Or.inr
          ⟨jsToFixed2 (calculateDistanceKm p.lat p.lng c.lat c.lng /
              ((tc - tp) / (1000 * 60 * 60))), ?_,
            speedOfPair_formula p c tc tp htc htp hle⟩)
        have hd : (0 : ℝ) ≤ calculateDistanceKm p.lat p.lng c.lat c.lng := by
          show (0 : ℝ) ≤ Real.sqrt _ * 111.32
          exact mul_nonneg (Real.sqrt_nonneg _) (by norm_num)
        have hv : (0 : ℝ) ≤ calculateDistanceKm p.lat p.lng c.lat c.lng /
            ((tc - tp) / (1000 * 60 * 60)) :=
          div_nonneg hd (div_nonneg (by linarith) (by norm_num))
        unfold jsToFixed2
        exact Int.floor_nonneg.mpr (by linarith)

/-- C8 (amended): for every index and route, `calculateSpeedKmH` totalizes
to one of `"N/A"`, the string `"NaN"` (only possible when a timestamp fails
to parse), or a nonnegative two-decimal numeric string (including `"0.00"`);
it never throws, and never yields a negative or infinite value. -/
theorem speed_result_total_shape (i : ℕ) (r : List RoutePoint) :
    calculateSpeedKmH i r = SpeedStr.na ∨
    calculateSpeedKmH i r = SpeedStr.nanStr ∨
    ∃ n : ℤ, 0 ≤ n ∧ calculateSpeedKmH i r = SpeedStr.fixed n := by
  by_cases h0 : i = 0 ∨ r.length ≤ 1
  · exact Or.inr (Or.inr ⟨0, le_rfl, speed_guard_zero r i (by tauto)⟩)
  · cases hc : r.get? i with
    | none =>
      exact Or.inr (Or.inr ⟨0, le_rfl, speed_guard_zero r i (Or.inr (Or.inr (Or.inl hc)))⟩)
    | some c =>
      cases hp : r.get? (i - 1) with
      | none =>
        exact Or.inr (Or.inr ⟨0, le_rfl, speed_guard_zero r i (Or.inr (Or.inr (Or.inr hp)))⟩)
      | some p =>
        have hi : 1 ≤ i := by
          rcases Nat.eq_zero_or_pos i with hz | hpos
          · exact absurd (Or.inl hz) h0
          · exact hpos
        rw [calculateSpeedKmH_eq_pair r i c p hi hc hp]
        exact speedOfPair_shape p c
